import Mathlib

/-
Verification of the study-content generation tool `mcp_study.py`
(repository djmahe4/mcp_study_tool).

The development is a shallow embedding of the Python source:

* the Streamlit session cache, the environment/secrets configuration and the
  behaviour of the external model endpoint are gathered in a `World` record;
  the external `model.invoke` call is an oracle field `sendBehavior`, and the
  `ChatGoogleGenerativeAI` constructor is modelled by `construct` (it fails
  exactly when no credential is available, or when the environment flag
  `ctorFail` injects a construction fault);
* Python exceptions are `Except String`; values returned by the external
  model are the inductive `Response`;
* calls to `st.error` / `st.warning` / `st.success`, the model sends, and the
  provider invocations are recorded in an event trace so that call-structure
  properties (retry counts, re-sent prompts) are statable;
* the on-disk `subjects/` hierarchy is a finite map `FS` from paths to file
  contents; `configparser` files are kept in parsed form (`Ini`), with
  configparser's lowercasing of option keys applied on read and write
  (interpolation of `%` signs is not modelled; the values written by this
  program are plain text).
-/

namespace McpStudy

/-! ## Data model: pydantic classes, model handles, responses, events -/

/-- `Topic` pydantic model: a descriptive name and a URL-friendly slug. -/
structure Topic where
  name : String
  slug : String
deriving DecidableEq, Repr

/-- The structured-output schemas the program binds to a model handle
(`ModuleTopics` and `GeneratedCode` in the source). -/
inductive SchemaTy where
  | moduleTopics
  | generatedCode
deriving DecidableEq, Repr

/-- A reply from the external model: a plain chat message (with `.content`),
or one of the schema-validated pydantic objects. -/
inductive Response where
  | message (content : String)
  | moduleTopics (topics : List Topic)
  | generatedCode (html css javascript : String)
deriving DecidableEq, Repr

/-- `isinstance(response, ModuleTopics)`. -/
def Response.isModuleTopics : Response → Bool
  | .moduleTopics _ => true
  | _ => false

/-- Attribute access `response.content`: an `AttributeError` unless the reply
is a plain chat message. -/
def Response.contentAttr : Response → Except String String
  | .message c => .ok c
  | _ => .error "AttributeError: object has no attribute content"

/-- A model handle as returned by `get_gemini_model`: the identity of the
underlying cached `ChatGoogleGenerativeAI` instance and, when
`with_structured_output` was applied, the bound schema (this field models the
`pydantic_schema` attribute the retry wrapper inspects). -/
structure Handle where
  raw : Nat
  schema : Option SchemaTy
deriving DecidableEq, Repr

/-- Observable events: provider invocations, sends to the external model, and
the `st.error` / `st.warning` / `st.success` user reports. -/
inductive Event where
  | getModel (schema : Option SchemaTy) (forceReinit : Bool)
  | send (handle : Handle) (prompt : String)
  | warning (msg : String)
  | error (msg : String)
  | success (msg : String)
deriving DecidableEq, Repr

/-- The process state and external environment:
`session` is `st.session_state['gemini_model']` (the cached raw model id),
`nextId` numbers freshly constructed model instances, `envKey` is
`os.environ.get('GOOGLE_API_KEY')`, `secretsKey` is
`st.secrets.get("GOOGLE_API_KEY")`, `ctorFail` injects a construction fault of
the external client, `sendCount` counts the sends performed so far, and
`sendBehavior` is the oracle giving the outcome of the n-th send of a prompt
on a handle (`.error` is a raised exception). -/
structure World where
  session : Option Nat
  nextId : Nat
  envKey : Option String
  secretsKey : Option String
  ctorFail : Bool
  sendCount : Nat
  sendBehavior : Nat → Handle → String → Except String Response

/-- Python truthiness of an optional string: `None` and `""` are falsy.  The
source tests credentials with `or`, so an empty environment variable falls
through to the secrets store. -/
def pyTruthy : Option String → Bool
  | none => false
  | some s => !(s = "")

/-- The external `ChatGoogleGenerativeAI` constructor: it raises when no
API credential is available (the library validates the key), and when the
environment injects a construction fault; otherwise it yields a fresh model
instance. -/
def construct (w : World) (apiKey : Option String) : Except String Nat :=
  if pyTruthy apiKey = false then .error "missing API credential"
  else if w.ctorFail then .error "model construction failure"
  else .ok w.nextId

/-- `get_gemini_model(structured_output_model=None, force_reinit=False)`
(mcp_study.py lines 28-43): discards the cached handle on `force_reinit`,
constructs and caches a model when none is cached (returning `None` and
reporting via `st.error` when construction raises), and wraps the cached
model with `with_structured_output` when a schema is supplied. -/
def get_gemini_model (w : World) (structured_output_model : Option SchemaTy)
    (force_reinit : Bool) : Option Handle × World × List Event :=
  let ev0 := [Event.getModel structured_output_model force_reinit]
  let w1 := if force_reinit && w.session.isSome then { w with session := none } else w
  match w1.session with
  | some mid => (some ⟨mid, structured_output_model⟩, w1, ev0)
  | none =>
      let apiKey := if pyTruthy w1.envKey then w1.envKey else w1.secretsKey
      match construct w1 apiKey with
      | .error e =>
          (none, w1, ev0 ++ [Event.error ("Failed to initialize Gemini model: " ++ e)])
      | .ok mid =>
          (some ⟨mid, structured_output_model⟩,
            { w1 with session := some mid, nextId := w1.nextId + 1 }, ev0)

/-- Advance the send counter (one call of `model.invoke` was performed). -/
def bumpSend (w : World) : World :=
  { w with sendCount := w.sendCount + 1 }

/-- `invoke_model_with_retry(model, prompt)` (mcp_study.py lines 45-55):
try `model.invoke(prompt)`; on an exception report a warning, read the
`pydantic_schema` attribute of the failed handle (absent on raw handles),
re-obtain a handle with `force_reinit=True` and that schema, and re-send the
same prompt on it; when the reinitialized handle is `None`, re-raise the
original exception. -/
def invoke_model_with_retry (w : World) (model : Handle) (prompt : String) :
    Except String Response × World × List Event :=
  match w.sendBehavior w.sendCount model prompt with
  | .ok r => (.ok r, bumpSend w, [Event.send model prompt])
  | .error e =>
      let w1 := bumpSend w
      let tr := [Event.send model prompt,
        Event.warning ("AI model call failed: " ++ e ++ ". Retrying...")]
      match get_gemini_model w1 model.schema true with
      | (some m2, w2, ev2) =>
          (w2.sendBehavior w2.sendCount m2 prompt, bumpSend w2,
            tr ++ ev2 ++ [Event.send m2 prompt])
      | (none, w2, ev2) => (.error e, w2, tr ++ ev2)

/-- Is an event a send to the external model? -/
def isSend : Event → Bool
  | .send _ _ => true
  | _ => false

/-- Number of sends of a trace. -/
def sendEvents (t : List Event) : Nat := t.countP isSend

/-- The provider itself never sends a prompt to the model. -/
theorem get_gemini_model_no_send (w : World) (sch : Option SchemaTy) (fr : Bool) :
    sendEvents (get_gemini_model w sch fr).2.2 = 0 := by
  simp only [get_gemini_model]
  split
  · simp [sendEvents, isSend]
  · split
    · simp [sendEvents, isSend]
    · simp [sendEvents, isSend]

/-- C1: for every world, model handle and prompt, `invoke_model_with_retry`
performs at most two sends of the prompt to the external model: the initial
attempt and at most one retry. -/
theorem invoke_retry_at_most_two_sends (w : World) (model : Handle) (prompt : String) :
    sendEvents (invoke_model_with_retry w model prompt).2.2 ≤ 2 := by
  unfold invoke_model_with_retry
  cases h : w.sendBehavior w.sendCount model prompt with
  | ok r => simp [sendEvents, isSend]
  | error e =>
      cases hgm : get_gemini_model (bumpSend w) model.schema true with
      | mk m2 rest =>
          cases rest with
          | mk w2 ev2 =>
              have hg : sendEvents ev2 = 0 := by
                have h0 := get_gemini_model_no_send (bumpSend w) model.schema true
                rw [hgm] at h0
                exact h0
              simp only [sendEvents] at hg
              dsimp only
              rw [hgm]
              cases m2 <;>
                simp [sendEvents, isSend, List.countP_append, List.countP_cons, hg]

/-- A handle returned by the provider is bound to exactly the schema that was
passed in. -/
theorem get_gemini_model_handle_schema (w : World) (sch : Option SchemaTy) (fr : Bool) :
    ∀ hnd ∈ (get_gemini_model w sch fr).1, hnd.schema = sch := by
  intro hnd hmem
  simp only [get_gemini_model] at hmem
  split at hmem
  · simp only [Option.mem_def, Option.some.injEq] at hmem
    rw [← hmem]
  · split at hmem
    · simp at hmem
    · simp only [Option.mem_def, Option.some.injEq] at hmem
      rw [← hmem]

/-- The provider trace always begins with the provider-invocation event
recording the requested schema and the force flag. -/
theorem get_gemini_model_trace_head (w : World) (sch : Option SchemaTy) (fr : Bool) :
    (get_gemini_model w sch fr).2.2.head? = some (Event.getModel sch fr) := by
  simp only [get_gemini_model]
  split
  · rfl
  · split <;> rfl

/-- C3: when the first send fails on a schema-bound handle,
`invoke_model_with_retry` re-obtains a handle from the provider with
`force_reinit` set and the failed handle's schema, the reinitialized handle is
bound to that same schema, and the single retry re-sends the same prompt
unchanged on it. -/
theorem invoke_retry_reinit_same_schema_same_prompt
    (w : World) (model : Handle) (prompt e : String) (σ : SchemaTy)
    (m2 : Handle) (w2 : World) (ev2 : List Event)
    (hσ : model.schema = some σ)
    (hf : w.sendBehavior w.sendCount model prompt = .error e)
    (hg : get_gemini_model (bumpSend w) (some σ) true = (some m2, w2, ev2)) :
    invoke_model_with_retry w model prompt =
      (w2.sendBehavior w2.sendCount m2 prompt, bumpSend w2,
        [Event.send model prompt,
         Event.warning ("AI model call failed: " ++ e ++ ". Retrying...")] ++
          ev2 ++ [Event.send m2 prompt]) ∧
    m2.schema = some σ ∧
    ev2.head? = some (Event.getModel (some σ) true) := by
  refine ⟨?_, ?_, ?_⟩
  · simp only [invoke_model_with_retry]
    rw [hf]
    dsimp only
    rw [hσ, hg]
  · have := get_gemini_model_handle_schema (bumpSend w) (some σ) true
    rw [hg] at this
    exact this m2 rfl
  · have := get_gemini_model_trace_head (bumpSend w) (some σ) true
    rw [hg] at this
    exact this

/-- C4: when the first send fails and the forced-reinit provider yields no
handle, the exception surfaced by `invoke_model_with_retry` is the original
failure of the first send. -/
theorem invoke_retry_surfaces_original_error
    (w : World) (model : Handle) (prompt e : String)
    (hf : w.sendBehavior w.sendCount model prompt = .error e)
    (hg : (get_gemini_model (bumpSend w) model.schema true).1 = none) :
    (invoke_model_with_retry w model prompt).1 = .error e := by
  simp only [invoke_model_with_retry]
  rw [hf]
  dsimp only
  cases hgm : get_gemini_model (bumpSend w) model.schema true with
  | mk m2 rest =>
    cases rest with
    | mk w2 ev2 =>
      rw [hgm] at hg
      dsimp only at hg
      subst hg
      rfl

/-- A world for the retry scenarios: a valid credential, no cached handle,
and an external model whose first send raises while later sends answer. -/
def retryWorld : World :=
  { session := none, nextId := 0, envKey := some "k", secretsKey := none,
    ctorFail := false, sendCount := 0,
    sendBehavior := fun n _ _ =>
      if n = 0 then .error "boom" else .ok (.message "ok") }

/-- The schema-bound handle whose first send fails in the C3 scenario. -/
def retryHandle : Handle := ⟨9, some SchemaTy.moduleTopics⟩

/-- The handle the provider yields on the forced reinitialization. -/
def retryReinitHandle : Handle := ⟨0, some SchemaTy.moduleTopics⟩

/-- The world after the first failed send and the forced reinitialization. -/
def retryWorld2 : World :=
  { bumpSend retryWorld with session := some 0, nextId := 1 }

/-- C3 witness: the concrete retry run re-sends the same prompt on a fresh
handle bound to the same schema. -/
theorem invoke_retry_reinit_witness :
    invoke_model_with_retry retryWorld retryHandle "p" =
      (.ok (.message "ok"), bumpSend retryWorld2,
        [Event.send retryHandle "p",
         Event.warning "AI model call failed: boom. Retrying...",
         Event.getModel (some SchemaTy.moduleTopics) true,
         Event.send retryReinitHandle "p"]) ∧
    retryReinitHandle.schema = some SchemaTy.moduleTopics ∧
    [Event.getModel (some SchemaTy.moduleTopics) true].head? =
      some (Event.getModel (some SchemaTy.moduleTopics) true) :=
  invoke_retry_reinit_same_schema_same_prompt retryWorld retryHandle "p" "boom"
    SchemaTy.moduleTopics retryReinitHandle retryWorld2
    [Event.getModel (some SchemaTy.moduleTopics) true] rfl rfl rfl

/-- A world with no credential anywhere and an external model that always
raises. -/
def noCredWorld : World :=
  { session := none, nextId := 0, envKey := none, secretsKey := none,
    ctorFail := false, sendCount := 0, sendBehavior := fun _ _ _ => .error "boom" }

/-- C4 witness: with no obtainable reinit handle, the surfaced error is the
first send's original exception. -/
theorem invoke_retry_surfaces_original_error_witness :
    (invoke_model_with_retry noCredWorld ⟨3, none⟩ "p").1 = .error "boom" :=
  invoke_retry_surfaces_original_error noCredWorld ⟨3, none⟩ "p" "boom" rfl rfl

/-- A credential-absent configuration holding a previously cached handle. -/
def cachedNoCredWorld : World :=
  { session := some 5, nextId := 6, envKey := none, secretsKey := none,
    ctorFail := false, sendCount := 0, sendBehavior := fun _ _ _ => .ok (.message "") }

/-- C8 counterexample: with no credential in the environment or the secrets
store but a cached handle in the session, `get_gemini_model` returns the
cached handle rather than `None`, and reports no configuration error. -/
theorem get_model_cached_counterexample :
    cachedNoCredWorld.envKey = none ∧ cachedNoCredWorld.secretsKey = none ∧
    (get_gemini_model cachedNoCredWorld none false).1 = some ⟨5, none⟩ ∧
    (get_gemini_model cachedNoCredWorld none false).2.2 = [Event.getModel none false] :=
  ⟨rfl, rfl, rfl, rfl⟩

/-- C8 (amended): when neither the environment variable nor the secrets store
yields a non-empty credential and no handle is cached (or the call forces
reinitialization), `get_gemini_model` returns `None` and reports the
configuration error via `st.error`; by construction of the embedding no
exception crosses the function boundary (the constructor is called inside the
caught region). -/
theorem get_model_no_credential_none (w : World) (sch : Option SchemaTy) (fr : Bool)
    (he : pyTruthy w.envKey = false) (hs : pyTruthy w.secretsKey = false)
    (hc : w.session = none ∨ fr = true) :
    (get_gemini_model w sch fr).1 = none ∧
    (get_gemini_model w sch fr).2.2 =
      [Event.getModel sch fr,
       Event.error "Failed to initialize Gemini model: missing API credential"] := by
  have hw1 : (if fr && w.session.isSome then { w with session := none } else w).session = none ∧
      (if fr && w.session.isSome then { w with session := none } else w).envKey = w.envKey ∧
      (if fr && w.session.isSome then { w with session := none } else w).secretsKey =
        w.secretsKey := by
    rcases hc with hno | hfr
    · simp [hno]
    · cases hsess : w.session with
      | none => simp [hfr, hsess]
      | some mid => simp [hfr, hsess]
  simp only [get_gemini_model]
  rw [hw1.1]
  dsimp only
  rw [hw1.2.1, hw1.2.2, he]
  simp [construct, hs]

/-- A fresh session whose environment variable is unset and whose secrets
store holds only an empty string (falsy under the source's `or` test). -/
def freshNoCredWorld : World :=
  { session := none, nextId := 0, envKey := none, secretsKey := some "",
    ctorFail := false, sendCount := 0, sendBehavior := fun _ _ _ => .ok (.message "") }

/-- C8 witness: the amended statement at a concrete credential-absent fresh
session. -/
theorem get_model_no_credential_none_witness :
    (get_gemini_model freshNoCredWorld none false).1 = none ∧
    (get_gemini_model freshNoCredWorld none false).2.2 =
      [Event.getModel none false,
       Event.error "Failed to initialize Gemini model: missing API credential"] :=
  get_model_no_credential_none freshNoCredWorld none false rfl rfl (Or.inl rfl)

/-! ## Association lists: Python dicts and configparser sections -/

/-- First-match lookup in an association list. -/
def assocGet {α β : Type} [DecidableEq α] : List (α × β) → α → Option β
  | [], _ => none
  | (a, b) :: t, k => if a = k then some b else assocGet t k

/-- In-place update of the first matching key, appending when absent (the
observable behaviour of a Python dict / configparser section update). -/
def assocSet {α β : Type} [DecidableEq α] : List (α × β) → α → β → List (α × β)
  | [], k, v => [(k, v)]
  | (a, b) :: t, k, v => if a = k then (k, v) :: t else (a, b) :: assocSet t k v

theorem assocGet_assocSet_self {α β : Type} [DecidableEq α]
    (l : List (α × β)) (k : α) (v : β) : assocGet (assocSet l k v) k = some v := by
  induction l with
  | nil => simp [assocGet, assocSet]
  | cons hd t ih =>
    obtain ⟨a, b⟩ := hd
    by_cases hak : a = k
    · simp [assocGet, assocSet, hak]
    · simp [assocGet, assocSet, hak, ih]

theorem assocGet_assocSet_ne {α β : Type} [DecidableEq α]
    (l : List (α × β)) (k k' : α) (v : β) (hk : k' ≠ k) :
    assocGet (assocSet l k v) k' = assocGet l k' := by
  induction l with
  | nil => simp [assocGet, assocSet, Ne.symm hk]
  | cons hd t ih =>
    obtain ⟨a, b⟩ := hd
    by_cases hak : a = k
    · subst hak
      simp [assocGet, assocSet, Ne.symm hk]
    · by_cases hak' : a = k'
      · simp [assocGet, assocSet, hak, hak', hk]
      · simp [assocGet, assocSet, hak, hak', ih]

theorem assocGet_append_none {α β : Type} [DecidableEq α]
    (l l' : List (α × β)) (k : α) (h : assocGet l k = none) :
    assocGet (l ++ l') k = assocGet l' k := by
  induction l with
  | nil => simp
  | cons hd t ih =>
    obtain ⟨a, b⟩ := hd
    by_cases hak : a = k
    · simp [assocGet, hak] at h
    · simp only [assocGet, hak] at h
      simp [assocGet, hak, ih h]

/-! ## configparser files in parsed form -/

/-- ASCII lowercasing of a character (Python `str.lower` restricted to the
ASCII option keys this program uses). -/
def lowerChar (c : Char) : Char :=
  if 'A' ≤ c ∧ c ≤ 'Z' then Char.ofNat (c.toNat + 32) else c

/-- configparser's `optionxform`, Python `str.lower`. -/
def pyLower (s : String) : String := String.mk (s.toList.map lowerChar)

/-- A configparser section: option key / value pairs in file order.  Option
keys are lowercased by configparser (`optionxform`); the writers below apply
`pyLower` accordingly.  Value interpolation (`%`) is not modelled: the
values this program stores are plain text. -/
abbrev Sect := List (String × String)

/-- A parsed configparser file: named sections in file order. -/
abbrev Ini := List (String × Sect)

def iniHasSection (c : Ini) (sec : String) : Bool := (assocGet c sec).isSome

/-- `config.add_section`. -/
def iniAddSection (c : Ini) (sec : String) : Ini := c ++ [(sec, [])]

/-- `config.set(sec, k, v)` on an existing section (the source always checks
`has_section` first; on a missing section configparser would raise, which no
reachable call does). -/
def iniSet (c : Ini) (sec k v : String) : Ini :=
  c.map fun sc => if sc.1 = sec then (sec, assocSet sc.2 (pyLower k) v) else sc

/-- `config.get(sec, k, fallback=fb)`. -/
def iniGet (c : Ini) (sec k fb : String) : String :=
  match assocGet c sec with
  | some s => (assocGet s (pyLower k)).getD fb
  | none => fb

/-- `sec in config and k in config[sec]` followed by `config[sec][k]`. -/
def iniSectionGet (c : Ini) (sec k : String) : Option String :=
  match assocGet c sec with
  | some s => assocGet s (pyLower k)
  | none => none

theorem isSome_false_eq_none {α : Type} {o : Option α} (h : o.isSome = false) : o = none := by
  cases o
  · rfl
  · simp at h

theorem assocGet_iniSet (c : Ini) (sec k v : String) :
    assocGet (iniSet c sec k v) sec =
      (assocGet c sec).map fun sect => assocSet sect (pyLower k) v := by
  induction c with
  | nil => simp [iniSet, assocGet]
  | cons hd t ih =>
    obtain ⟨s, sect⟩ := hd
    by_cases hs : s = sec
    · subst hs
      simp only [iniSet, List.map_cons]
      simp [assocGet]
    · simp only [iniSet, List.map_cons] at ih ⊢
      rw [show (if (s, sect).1 = sec then (sec, assocSet sect (pyLower k) v) else (s, sect)) =
        (s, sect) from if_neg hs]
      simp only [assocGet, hs, if_false, ih]

theorem iniGet_iniSet_self (c : Ini) (sec k v fb : String)
    (h : iniHasSection c sec = true) : iniGet (iniSet c sec k v) sec k fb = v := by
  unfold iniGet
  rw [assocGet_iniSet]
  unfold iniHasSection at h
  cases hg : assocGet c sec with
  | none => rw [hg] at h; simp at h
  | some sect => simp [assocGet_assocSet_self]

theorem iniGet_of_no_section (c : Ini) (sec k fb : String)
    (h : iniHasSection c sec = false) : iniGet c sec k fb = fb := by
  unfold iniGet
  unfold iniHasSection at h
  rw [isSome_false_eq_none h]

theorem iniGet_iniAddSection_self (c : Ini) (sec k fb : String)
    (h : iniHasSection c sec = false) : iniGet (iniAddSection c sec) sec k fb = fb := by
  unfold iniHasSection at h
  unfold iniGet iniAddSection
  rw [assocGet_append_none c _ sec (isSome_false_eq_none h)]
  simp [assocGet]

theorem iniHasSection_iniAddSection (c : Ini) (sec : String)
    (h : iniHasSection c sec = false) : iniHasSection (iniAddSection c sec) sec = true := by
  unfold iniHasSection at h ⊢
  unfold iniAddSection
  rw [assocGet_append_none c _ sec (isSome_false_eq_none h)]
  simp [assocGet]

/-! ## The on-disk subjects hierarchy -/

/-- A filesystem path as its components (the source only ever joins fixed
names under `subjects/`, so path components are plain strings). -/
abbrev DirPath := List String

/-- A stored file: plain text, or a configparser file kept in parsed form
(the text serialization round-trips through `config.write` / `config.read`
for the section/key/value data this program stores). -/
inductive FileContent where
  | text (s : String)
  | ini (c : Ini)
deriving DecidableEq

/-- The filesystem: the set of existing directories and a path-indexed map of
files. -/
structure FS where
  dirs : List DirPath
  files : List (DirPath × FileContent)
deriving DecidableEq

def FS.empty : FS := ⟨[], []⟩

def FS.readFile (fs : FS) (p : DirPath) : Option FileContent := assocGet fs.files p

def FS.fileExists (fs : FS) (p : DirPath) : Bool := (fs.readFile p).isSome

/-- `write_text` / `config.write`: a whole-file overwrite. -/
def FS.writeFile (fs : FS) (p : DirPath) (c : FileContent) : FS :=
  { fs with files := assocSet fs.files p c }

def FS.dirExists (fs : FS) (p : DirPath) : Bool := decide (p ∈ fs.dirs)

/-- `Path.mkdir(parents=True, exist_ok=True)`. -/
def FS.mkdirParents (fs : FS) (p : DirPath) : FS :=
  { fs with
    dirs := fs.dirs ++ (((List.range p.length).map fun i => p.take (i + 1)).filter
      fun q => !decide (q ∈ fs.dirs)) }

/-- The names of the immediate subdirectories of `p` (`iterdir` filtered by
`is_dir`, in directory-list order). -/
def FS.childDirs (fs : FS) (p : DirPath) : List String :=
  fs.dirs.filterMap fun d =>
    if d.length = p.length + 1 && decide (d.take p.length = p) then d.getLast? else none

/-- `config.read(path)`: a missing file yields an empty parser; the files
this program reads as configs always hold config data. -/
def FS.readIni (fs : FS) (p : DirPath) : Ini :=
  match fs.readFile p with
  | some (.ini c) => c
  | _ => []

theorem FS.readFile_writeFile_self (fs : FS) (p : DirPath) (c : FileContent) :
    (fs.writeFile p c).readFile p = some c := by
  simp [FS.readFile, FS.writeFile, assocGet_assocSet_self]

theorem FS.readFile_writeFile_ne (fs : FS) (p q : DirPath) (c : FileContent)
    (h : q ≠ p) : (fs.writeFile p c).readFile q = fs.readFile q := by
  simp [FS.readFile, FS.writeFile, assocGet_assocSet_ne _ _ _ _ h]

theorem FS.readIni_writeFile_self (fs : FS) (p : DirPath) (c : Ini) :
    (fs.writeFile p (.ini c)).readIni p = c := by
  simp [FS.readIni, FS.readFile_writeFile_self]

theorem FS.readIni_writeFile_ne (fs : FS) (p q : DirPath) (c : FileContent)
    (h : q ≠ p) : (fs.writeFile p c).readIni q = fs.readIni q := by
  simp [FS.readIni, FS.readFile_writeFile_ne fs p q c h]

/-! ## Store: subject initialization and the web-folio -/

/-- The fixed base directory of the hierarchy. -/
def subjects_root : String := "subjects"

/-- The initial `index.html` page of a subject. -/
def index_html : String :=
  "<html><head><link rel=\"stylesheet\" href=\"style.css\"></head><body><h1>My Web-Folio</h1><div id=\"content\"></div><script src=\"script.js\"></script></body></html>"

/-- The initial `style.css` of a subject. -/
def style_css : String := "body \x7b font-family: sans-serif; \x7d"

/-- The initial `script.js` of a subject. -/
def script_js : String := "console.log(\x27Web-Folio loaded\x27);"

/-- The `<subject>_web_dev.py` editor application text written by
`create_web_dev_app`: the interpolated `app_template` f-string of the source
(inert text as far as the store is concerned). -/
def web_dev_app_template (subject_name : String) : String :=
  "\nimport streamlit as st\nimport pathlib\n\nst.set_page_config(page_title=f\"" ++
    subject_name ++ " Web Dev\")\nst.title(\"Web-Folio Editor\")\n\nsubject_dir = pathlib.Path(__file__).parent\nindex_path = subject_dir / \"index.html\"\n\nif index_path.exists():\n    html_content = index_path.read_text()\n    edited_html = st.text_area(\"HTML Content\", html_content, height=500)\n\n    if st.button(\"Save Changes\"):\n        index_path.write_text(edited_html)\n        st.success(\"Changes saved!\")\n"

/-- `create_web_dev_app(subject_name)` (mcp_study.py lines 82-104):
unconditionally writes the subject's web-dev editor application. -/
def create_web_dev_app (fs : FS) (subject_name : String) : FS :=
  fs.writeFile [subjects_root, subject_name, subject_name ++ "_web_dev.py"]
    (.text (web_dev_app_template subject_name))

/-- The initial `subject_context.txt` config of a subject. -/
def initial_subject_context (subject_name : String) : Ini :=
  [("subject", [("name", subject_name), ("context", "The study of " ++ subject_name ++ ".")]),
   ("cross_module_concepts", [("concept1", "Description1")]),
   ("saved_content", [])]

/-- Path of a subject's `subject_context.txt`. -/
def subject_context_path (subject_name : String) : DirPath :=
  [subjects_root, subject_name, "subject_context.txt"]

/-- Path of a subject's `index.html`. -/
def index_path (subject_name : String) : DirPath :=
  [subjects_root, subject_name, "index.html"]

/-- `initialize_subject(subject_name)` (mcp_study.py lines 59-80): creates
the subject directory, writes the context record and the three web-folio
files when absent, and (re)writes the web-dev editor application. -/
def initialize_subject (fs : FS) (subject_name : String) : FS :=
  let subject_dir : DirPath := [subjects_root, subject_name]
  let fs := fs.mkdirParents subject_dir
  let fs :=
    if fs.fileExists (subject_context_path subject_name) then fs
    else fs.writeFile (subject_context_path subject_name)
      (.ini (initial_subject_context subject_name))
  let fs :=
    if fs.fileExists (index_path subject_name) then fs
    else fs.writeFile (index_path subject_name) (.text index_html)
  let fs :=
    if fs.fileExists (subject_dir ++ ["style.css"]) then fs
    else fs.writeFile (subject_dir ++ ["style.css"]) (.text style_css)
  let fs :=
    if fs.fileExists (subject_dir ++ ["script.js"]) then fs
    else fs.writeFile (subject_dir ++ ["script.js"]) (.text script_js)
  create_web_dev_app fs subject_name

/-- The prompt `update_web_folio` sends to the model. -/
def folio_prompt (topic_name content content_type : String) : String :=
  "Format the following " ++ content_type ++ " content for a web page section about \x27" ++
    topic_name ++ "\x27. Use stylish and modern HTML. Content: " ++ content

/-- The insertion marker of the web-folio page. -/
def content_marker : String := "<div id=\"content\">"

/-- Lines 219-222 of the source: when `index.html` exists, splice the
generated fragment after the content marker (`str.replace` rewrites every
occurrence of the marker) and overwrite the page. -/
def spliceIndex (fs : FS) (subject_name html_content : String) : FS :=
  match fs.readFile (index_path subject_name) with
  | some (.text existing) =>
      fs.writeFile (index_path subject_name)
        (.text (existing.replace content_marker (content_marker ++ "\n" ++ html_content)))
  | _ => fs

/-- Index of the leftmost occurrence of `needle` in `hay`, when any. -/
def firstIdx {α : Type} [DecidableEq α] (needle hay : List α) : Option Nat :=
  (List.range (hay.length + 1)).find? fun i =>
    decide ((hay.drop i).take needle.length = needle)

/-- Python's substring containment `needle in hay`. -/
def pySubstr (needle hay : String) : Bool := (firstIdx needle.toList hay.toList).isSome

/-- The new value of a saved-content ledger entry after recording
`content_type` once: unchanged when `content_type` already occurs as a
substring, otherwise the comma-joined append the source performs. -/
def ledgerStep (saved_types content_type : String) : String :=
  if pySubstr content_type saved_types then saved_types
  else saved_types ++ (if saved_types = "" then "" else ",") ++ content_type

/-- Lines 224-235 of the source: read `subject_context.txt`, ensure the
`saved_content` section, append the content type to the topic's comma-joined
tag set unless it already occurs as a substring, and rewrite the file. -/
def ledgerUpdate (fs : FS) (subject_name topic_name content_type : String) : FS :=
  let config := fs.readIni (subject_context_path subject_name)
  let config := if iniHasSection config "saved_content" then config
                else iniAddSection config "saved_content"
  let saved_types := iniGet config "saved_content" topic_name ""
  let config :=
    if pySubstr content_type saved_types then config
    else iniSet config "saved_content" topic_name
      (saved_types ++ (if saved_types = "" then "" else ",") ++ content_type)
  fs.writeFile (subject_context_path subject_name) (.ini config)

/-- The saved-content ledger entry of a topic as `update_web_folio` itself
reads it back from `subject_context.txt`. -/
def ledgerLookup (fs : FS) (subject_name topic_name : String) : String :=
  iniGet (fs.readIni (subject_context_path subject_name)) "saved_content" topic_name ""

/-- `update_web_folio(subject_name, topic_name, content, content_type)`
(mcp_study.py lines 208-235): formats the content via the model when a handle
is available, splices the fragment into `index.html` when the page exists,
and then unconditionally records the content type in the saved-content
ledger.  An exception raised by the invoker (or the attribute access on a
non-message reply) propagates as `.error` and skips the rest of the body. -/
def update_web_folio (w : World) (fs : FS)
    (subject_name topic_name content content_type : String) :
    Except String Unit × World × FS × List Event :=
  match get_gemini_model w none false with
  | (some model, w0, ev0) =>
      match invoke_model_with_retry w0 model (folio_prompt topic_name content content_type) with
      | (.error e, w1, ev1) => (.error e, w1, fs, ev0 ++ ev1)
      | (.ok response, w1, ev1) =>
          match response.contentAttr with
          | .error e => (.error e, w1, fs, ev0 ++ ev1)
          | .ok html_content =>
              (.ok (), w1,
                ledgerUpdate (spliceIndex fs subject_name html_content)
                  subject_name topic_name content_type, ev0 ++ ev1)
  | (none, w0, ev0) =>
      (.ok (), w0, ledgerUpdate fs subject_name topic_name content_type, ev0)

/-! ## Ledger lemmas -/

theorem ledgerLookup_ledgerUpdate (fs : FS) (s t ct : String) :
    ledgerLookup (ledgerUpdate fs s t ct) s t = ledgerStep (ledgerLookup fs s t) ct := by
  unfold ledgerLookup ledgerUpdate ledgerStep
  rw [FS.readIni_writeFile_self]
  by_cases hsec : iniHasSection (fs.readIni (subject_context_path s)) "saved_content"
  · rw [if_pos hsec]
    by_cases hsub : pySubstr ct (iniGet (fs.readIni (subject_context_path s))
        "saved_content" t "")
    · rw [if_pos hsub, if_pos hsub]
    · rw [if_neg hsub, if_neg hsub,
        iniGet_iniSet_self _ _ _ _ _ hsec]
  · rw [if_neg hsec]
    have hv0 : iniGet (fs.readIni (subject_context_path s)) "saved_content" t "" = "" :=
      iniGet_of_no_section _ _ _ _ (by simpa using hsec)
    have hadd : iniGet (iniAddSection (fs.readIni (subject_context_path s)) "saved_content")
        "saved_content" t "" = "" :=
      iniGet_iniAddSection_self _ _ _ _ (by simpa using hsec)
    rw [hadd, hv0]
    by_cases hsub : pySubstr ct ""
    · rw [if_pos hsub, if_pos hsub, hadd]
    · rw [if_neg hsub, if_neg hsub,
        iniGet_iniSet_self _ _ _ _ _
          (iniHasSection_iniAddSection _ _ (by simpa using hsec))]

theorem ledgerLookup_spliceIndex (fs : FS) (s html t : String) :
    ledgerLookup (spliceIndex fs s html) s t = ledgerLookup fs s t := by
  have hne : subject_context_path s ≠ index_path s := by
    simp [subject_context_path, index_path]
  unfold spliceIndex
  split
  · unfold ledgerLookup
    rw [FS.readIni_writeFile_ne _ _ _ _ hne]
  · rfl

/-- Every successful return of `update_web_folio` leaves the topic's ledger
entry at exactly one recording step over its previous value, whatever the
provider and the page did. -/
theorem update_web_folio_ledger (w : World) (fs : FS) (s t c ct : String)
    (w' : World) (fs' : FS) (ev : List Event)
    (h : update_web_folio w fs s t c ct = (.ok (), w', fs', ev)) :
    ledgerLookup fs' s t = ledgerStep (ledgerLookup fs s t) ct := by
  unfold update_web_folio at h
  split at h
  · split at h
    · simp at h
    · split at h
      · simp at h
      · simp only [Prod.mk.injEq] at h
        rw [← h.2.2.1]
        rw [ledgerLookup_ledgerUpdate, ledgerLookup_spliceIndex]
  · simp only [Prod.mk.injEq] at h
    rw [← h.2.2.1]
    rw [ledgerLookup_ledgerUpdate]

theorem pySubstr_self (s : String) : pySubstr s s = true := by
  unfold pySubstr firstIdx
  rw [List.find?_isSome]
  refine ⟨0, ?_, ?_⟩
  · simp
  · simp

theorem firstIdx_nil {α : Type} [DecidableEq α] (needle : List α) (h : needle ≠ []) :
    firstIdx needle [] = none := by
  unfold firstIdx
  simp [List.find?, Ne.symm h]

theorem pySubstr_empty_hay (s : String) (h : s ≠ "") : pySubstr s "" = false := by
  have hs : s.toList ≠ [] := by
    intro hc
    exact h (String.ext (by rw [show s.data = s.toList from rfl, hc]))
  unfold pySubstr
  rw [show ("" : String).toList = [] from rfl, firstIdx_nil _ hs]
  rfl

/-- C5 (amended): starting from a state where the topic has no recorded
content types, two `update_web_folio` calls that both return normally with
the same `(topic_name, content_type)` pair (for a nonempty content type)
leave the topic's saved-content ledger entry in `subject_context.txt` equal
to `content_type` alone: the tag is recorded exactly once and the second
recording is a no-op. -/
theorem folio_ledger_idempotent (w w1 w2 : World) (fs fs1 fs2 : FS)
    (s t c1 c2 ct : String) (ev1 ev2 : List Event)
    (hct : ct ≠ "")
    (h0 : ledgerLookup fs s t = "")
    (h1 : update_web_folio w fs s t c1 ct = (.ok (), w1, fs1, ev1))
    (h2 : update_web_folio w1 fs1 s t c2 ct = (.ok (), w2, fs2, ev2)) :
    ledgerLookup fs2 s t = ct := by
  have l1 := update_web_folio_ledger _ _ _ _ _ _ _ _ _ h1
  have l2 := update_web_folio_ledger _ _ _ _ _ _ _ _ _ h2
  rw [h0] at l1
  have e1 : ledgerLookup fs1 s t = ct := by
    rw [l1]
    unfold ledgerStep
    rw [if_neg (by simp [pySubstr_empty_hay ct hct])]
    simp
  rw [e1] at l2
  rw [l2]
  unfold ledgerStep
  rw [if_pos (pySubstr_self ct)]

/-- The filesystem of a freshly initialized subject `s`. -/
def folioFS0 : FS := initialize_subject FS.empty "s"

/-- The filesystem after one folio update (provider unavailable). -/
def folioFS1 : FS := (update_web_folio noCredWorld folioFS0 "s" "t" "c" "quiz").2.2.1

/-- The filesystem after the identical second folio update. -/
def folioFS2 : FS :=
  (update_web_folio (update_web_folio noCredWorld folioFS0 "s" "t" "c" "quiz").2.1
    folioFS1 "s" "t" "c" "quiz").2.2.1

/-- C5 witness: on a freshly initialized subject, two identical updates leave
the ledger entry equal to the single tag. -/
theorem folio_ledger_idempotent_witness : ledgerLookup folioFS2 "s" "t" = "quiz" :=
  folio_ledger_idempotent noCredWorld
    (update_web_folio noCredWorld folioFS0 "s" "t" "c" "quiz").2.1
    (update_web_folio (update_web_folio noCredWorld folioFS0 "s" "t" "c" "quiz").2.1
      folioFS1 "s" "t" "c" "quiz").2.1
    folioFS0 folioFS1 folioFS2 "s" "t" "c" "c" "quiz"
    (update_web_folio noCredWorld folioFS0 "s" "t" "c" "quiz").2.2.2
    (update_web_folio (update_web_folio noCredWorld folioFS0 "s" "t" "c" "quiz").2.1
      folioFS1 "s" "t" "c" "quiz").2.2.2
    (by decide) (by rfl) (by rfl) (by rfl)

/-- C9: the ledger mutation of `update_web_folio` is not atomic with the page
update: when the provider yields no model the call still returns normally and
its whole filesystem effect is the ledger rewrite of `subject_context.txt`;
and every normal return on a filesystem without `index.html` likewise leaves
exactly the ledger rewrite (no page was spliced). -/
theorem folio_ledger_unconditional (w : World) (fs : FS) (s t c ct : String) :
    ((get_gemini_model w none false).1 = none →
      update_web_folio w fs s t c ct =
        (.ok (), (get_gemini_model w none false).2.1,
          ledgerUpdate fs s t ct, (get_gemini_model w none false).2.2)) ∧
    (fs.fileExists (index_path s) = false →
      (update_web_folio w fs s t c ct).1 = .ok () →
      (update_web_folio w fs s t c ct).2.2.1 = ledgerUpdate fs s t ct) := by
  constructor
  · unfold update_web_folio
    cases hg : get_gemini_model w none false with
    | mk mo rest =>
      obtain ⟨w0, ev0⟩ := rest
      cases mo with
      | none => intro _; rfl
      | some model => intro hm; simp at hm
  · intro hidx
    have hsplice : ∀ html, spliceIndex fs s html = fs := by
      intro html
      unfold spliceIndex
      unfold FS.fileExists at hidx
      rw [isSome_false_eq_none hidx]
    unfold update_web_folio
    cases hg : get_gemini_model w none false with
    | mk mo rest =>
      obtain ⟨w0, ev0⟩ := rest
      cases mo with
      | none => intro _; rfl
      | some model =>
        dsimp only
        cases hi : invoke_model_with_retry w0 model (folio_prompt t c ct) with
        | mk r rest1 =>
          obtain ⟨w1, ev1⟩ := rest1
          cases r with
          | error e => intro hok; simp at hok
          | ok resp =>
            dsimp only
            cases hc : resp.contentAttr with
            | error e => intro hok; simp at hok
            | ok html =>
              intro _
              dsimp only
              rw [hsplice]

/-- C9 witness: with the provider unavailable, the concrete update run
returns normally with exactly the ledger rewrite. -/
theorem folio_ledger_unconditional_witness :
    update_web_folio noCredWorld folioFS0 "s" "t" "c" "markdown" =
      (.ok (), (get_gemini_model noCredWorld none false).2.1,
        ledgerUpdate folioFS0 "s" "t" "markdown",
        (get_gemini_model noCredWorld none false).2.2) :=
  (folio_ledger_unconditional noCredWorld folioFS0 "s" "t" "c" "markdown").1 rfl

/-! ## Module initialization -/

/-- Path of a module's directory. -/
def module_dir (subject_name module_name : String) : DirPath :=
  [subjects_root, subject_name, module_name]

def module_context_file (s m : String) : DirPath := module_dir s m ++ ["module_context.txt"]

def module_syllabus_file (s m : String) : DirPath := module_dir s m ++ ["syllabus.txt"]

def module_app_file (s m : String) : DirPath := module_dir s m ++ [m ++ "_app.py"]

/-- The topic-extraction prompt of `initialize_module`. -/
def topics_prompt (module_name syllabus_text : String) : String :=
  "Parse the syllabus for \x27" ++ module_name ++
    "\x27 to extract topics. Create a URL-friendly slug for each. Syllabus: " ++ syllabus_text

/-- The dict comprehension of line 118 followed by the configparser section
assignment: slug-keyed, keys lowercased, a later duplicate slug overwriting
an earlier one. -/
def dictOfTopics (topics : List Topic) : Sect :=
  topics.foldl (fun d t => assocSet d (pyLower t.slug) t.name) []

/-- The `module_context.txt` config written on successful topic extraction
(lines 116-126). -/
def module_context_ini (module_name : String) (topics : List Topic) : Ini :=
  [("module", [("name", module_name), ("context", "Initial context.")]),
   ("topics", dictOfTopics topics),
   ("features",
     [("conceptual_breakdown", "true"), ("visual_concept_map", "true"),
      ("interactive_quiz", "true"), ("mnemonics", "true")])]

/-- The per-module application text of lines 131-203 (the interpolated
`app_template` f-string, abridged to its head: the store writes the file
whole and never reads it back, so the text is inert payload). -/
def module_app_template (module_name : String) : String :=
  "\nimport streamlit as st\nimport pathlib\nimport configparser\nimport sys\nst.set_page_config(page_title=\"" ++
    module_name ++ "\", layout=\"wide\")\nst.title(\"" ++ module_name ++ "\")\n"

/-- Lines 204-206 of `initialize_module`: write the per-module application,
then `syllabus.txt`, and report success. -/
def moduleFinish (w : World) (fs : FS) (subject_name module_name syllabus_text : String)
    (ev : List Event) : Except String Unit × World × FS × List Event :=
  let fs := fs.writeFile (module_app_file subject_name module_name)
    (.text (module_app_template module_name))
  let fs := fs.writeFile (module_syllabus_file subject_name module_name) (.text syllabus_text)
  (.ok (), w, fs,
    ev ++ [Event.success ("Module \x27" ++ module_name ++ "\x27 initialized.")])

/-- `initialize_module(subject_name, module_name, syllabus_text)` (mcp_study.py
lines 106-206): ensure the subject exists, create the module directory,
obtain a `ModuleTopics`-bound handle; when one is available, extract topics
and write `module_context.txt` on a schema-valid reply, but report an error
and return early on any other reply (writing none of the remaining files);
finally write the per-module application and the syllabus.  When the
provider yields no handle the extraction block is skipped entirely and the
final writes still happen.  A raised invoker exception propagates. -/
def initialize_module (w : World) (fs : FS)
    (subject_name module_name syllabus_text : String) :
    Except String Unit × World × FS × List Event :=
  let fs := initialize_subject fs subject_name
  let fs := fs.mkdirParents (module_dir subject_name module_name)
  match get_gemini_model w (some SchemaTy.moduleTopics) false with
  | (some llm, w0, ev0) =>
      match invoke_model_with_retry w0 llm (topics_prompt module_name syllabus_text) with
      | (.error e, w1, ev1) => (.error e, w1, fs, ev0 ++ ev1)
      | (.ok response, w1, ev1) =>
          match response with
          | .moduleTopics topics =>
              let fs := fs.writeFile (module_context_file subject_name module_name)
                (.ini (module_context_ini module_name topics))
              moduleFinish w1 fs subject_name module_name syllabus_text (ev0 ++ ev1)
          | _ => (.ok (), w1, fs, ev0 ++ ev1 ++ [Event.error "Failed to parse syllabus."])
  | (none, w0, ev0) => moduleFinish w0 fs subject_name module_name syllabus_text ev0

/-! ## Loading the hierarchy -/

/-- The in-memory record of a module: its slug-to-name topic mapping. -/
structure ModuleInfo where
  topics : List (String × String)
deriving DecidableEq

/-- The in-memory record of a subject: context text and module records. -/
structure SubjectInfo where
  context : String
  modules : List (String × ModuleInfo)
deriving DecidableEq

/-- The inner loop of `load_subject_structure` (lines 252-260).  When a
`module_context.txt` exists but holds no `[topics]` section, line 259
evaluates `{{}}`: a set display containing an empty dict, which raises
`TypeError: unhashable type: dict` (the same text inside the f-string of the
generated module app renders as `{}`; outside an f-string it is a slip).
Keys of a read section are exposed lowercased (configparser `optionxform`). -/
def loadModules (fs : FS) (subject_dir : DirPath) :
    Except String (List (String × ModuleInfo)) :=
  (fs.childDirs subject_dir).foldlM (fun acc module_name =>
    if fs.fileExists (subject_dir ++ [module_name, "module_context.txt"]) then
      let config := fs.readIni (subject_dir ++ [module_name, "module_context.txt"])
      match assocGet config "topics" with
      | some topics =>
          .ok (acc ++ [(module_name, ⟨topics.map fun kv => (pyLower kv.1, kv.2)⟩)])
      | none => .error "TypeError: unhashable type: dict"
    else .ok acc) []

/-- `load_subject_structure(base_path="subjects")` (mcp_study.py lines
237-261): a missing base directory yields an empty mapping; each subject
directory contributes its context (empty when `subject_context.txt` or its
`[subject]/context` entry is missing) and its module records. -/
def load_subject_structure (fs : FS) (base_path : String) :
    Except String (List (String × SubjectInfo)) :=
  if fs.dirExists [base_path] = false then .ok []
  else
    (fs.childDirs [base_path]).foldlM (fun acc subject_name =>
      let subject_dir := [base_path, subject_name]
      let context :=
        if fs.fileExists (subject_dir ++ ["subject_context.txt"]) then
          match iniSectionGet (fs.readIni (subject_dir ++ ["subject_context.txt"]))
              "subject" "context" with
          | some v => v
          | none => ""
        else ""
      match loadModules fs subject_dir with
      | .ok mods => .ok (acc ++ [(subject_name, ⟨context, mods⟩)])
      | .error e => .error e) []

/-! ## The visual concept map generator -/

/-- Index of the rightmost occurrence of `needle` in `hay`, when any. -/
def lastIdx {α : Type} [DecidableEq α] (needle hay : List α) : Option Nat :=
  ((List.range (hay.length + 1)).filter fun i =>
    decide ((hay.drop i).take needle.length = needle)).getLast?

/-- The opening marker of the extraction pattern. -/
def dotMark : List Char := "```dot".toList

/-- A closing fence. -/
def fenceMark : List Char := "```".toList

/-- `re.search(r"```dot(.*)```", content, re.DOTALL)`: the match starts at
the leftmost occurrence of the marker and the greedy `(.*)` extends to the
last closing fence of the reply; the returned string is `group(1)`. -/
def dotSearch (content : String) : Option String :=
  match firstIdx dotMark content.toList with
  | none => none
  | some i =>
      match lastIdx fenceMark (content.toList.drop (i + 6)) with
      | none => none
      | some j => some (String.mk ((content.toList.drop (i + 6)).take j))

/-- The content of the first dot-tagged fenced block: the text between the
first marker and the next (not the last) closing fence. -/
def firstDotBlock (content : String) : Option String :=
  match firstIdx dotMark content.toList with
  | none => none
  | some i =>
      match firstIdx fenceMark (content.toList.drop (i + 6)) with
      | none => none
      | some j => some (String.mk ((content.toList.drop (i + 6)).take j))

/-- Whether the extraction pattern matches the reply at all: a marker
followed by a closing fence. -/
def hasDotFence (content : String) : Bool := (dotSearch content).isSome

/-- Python whitespace as stripped by `str.strip()`. -/
def isPySpace (c : Char) : Bool :=
  c = ' ' || c = '\t' || c = '\n' || c = '\r' || c = '\x0b' || c = '\x0c'

/-- Python `str.strip()`. -/
def pyStrip (s : String) : String :=
  String.mk ((s.toList.dropWhile isPySpace).reverse.dropWhile isPySpace).reverse

/-- The literal fallback graph of line 287. -/
def fallback_map : String := "digraph G \x7b error[label=\"Failed to generate map\"]; \x7d"

/-- The prompt of `generate_visual_map`. -/
def visual_map_prompt (topic_context : String) : String :=
  "Generate a Graphviz DOT string for a concept map on: " ++ topic_context ++ "."

/-- `generate_visual_map(topic_context)` (mcp_study.py lines 279-287): ask
the model for a DOT string; return the stripped extraction when the fenced
pattern matches the reply, and the fallback graph when it does not or when
no model is available.  A raised invoker exception (or the attribute access
on a structured reply) propagates. -/
def generate_visual_map (w : World) (topic_context : String) :
    Except String String × World × List Event :=
  match get_gemini_model w none false with
  | (some model, w0, ev0) =>
      match invoke_model_with_retry w0 model (visual_map_prompt topic_context) with
      | (.error e, w1, ev1) => (.error e, w1, ev0 ++ ev1)
      | (.ok response, w1, ev1) =>
          match response.contentAttr with
          | .error e => (.error e, w1, ev0 ++ ev1)
          | .ok content =>
              match dotSearch content with
              | some g => (.ok (pyStrip g), w1, ev0 ++ ev1)
              | none => (.ok fallback_map, w1, ev0 ++ ev1)
  | (none, w0, ev0) => (.ok fallback_map, w0, ev0)

/-! ## Claims on loading, the ledger round trip, and the visual map -/

/-- A hierarchy with one subject and no context or module files. -/
def loadFSNoContext : FS := { dirs := [["subjects"], ["subjects", "s"]], files := [] }

/-- A hierarchy whose single module has a `module_context.txt` without a
`[topics]` section. -/
def loadFSNoTopics : FS :=
  { dirs := [["subjects"], ["subjects", "s"], ["subjects", "s", "m"]],
    files := [(["subjects", "s", "m", "module_context.txt"],
      .ini [("module", [("name", "m"), ("context", "Initial context.")])])] }

/-- C2: `load_subject_structure` tolerates a missing base directory (empty
mapping) and a missing `subject_context.txt` (empty context), but on a
`module_context.txt` without a `[topics]` section it raises: line 259's
`else {{}}` builds a set containing a dict, a `TypeError`, instead of the
empty mapping the generated-app template produces from the same text. -/
theorem load_structure_missing_topics_raises :
    load_subject_structure FS.empty "subjects" = .ok [] ∧
    load_subject_structure loadFSNoContext "subjects" = .ok [("s", ⟨"", []⟩)] ∧
    load_subject_structure loadFSNoTopics "subjects" =
      .error "TypeError: unhashable type: dict" :=
  ⟨rfl, rfl, rfl⟩

/-- A subject context whose ledger already holds `football` for topic `t`. -/
def dirtyLedgerFS : FS :=
  { dirs := [["subjects"], ["subjects", "s"]],
    files := [(subject_context_path "s",
      .ini [("subject", [("name", "s"), ("context", "ctx")]),
            ("saved_content", [("t", "football")])])] }

/-- The dirty-start hierarchy after two updates with the pair `(t, oo)`. -/
def dirtyLedgerFS2 : FS :=
  (update_web_folio (update_web_folio noCredWorld dirtyLedgerFS "s" "t" "c" "oo").2.1
    (update_web_folio noCredWorld dirtyLedgerFS "s" "t" "c" "oo").2.2.1
    "s" "t" "c" "oo").2.2.1

/-- Comma splitting of a ledger value. -/
def splitCommaAux : List Char → List Char → List String
  | [], acc => [String.mk acc.reverse]
  | c :: rest, acc =>
      if c = ',' then String.mk acc.reverse :: splitCommaAux rest []
      else splitCommaAux rest (c :: acc)

/-- The comma-joined entries of a ledger value. -/
def ledgerEntries (s : String) : List String := splitCommaAux s.toList []

/-- Two hierarchies identical except for the saved-content ledger. -/
def ledgerFSA : FS :=
  { dirs := [["subjects"], ["subjects", "s"]],
    files := [(subject_context_path "s",
      .ini [("subject", [("name", "s"), ("context", "ctx")]), ("saved_content", [])])] }

/-- The variant of `ledgerFSA` whose ledger holds one entry. -/
def ledgerFSB : FS :=
  { dirs := [["subjects"], ["subjects", "s"]],
    files := [(subject_context_path "s",
      .ini [("subject", [("name", "s"), ("context", "ctx")]),
            ("saved_content", [("t", "markdown")])])] }

/-- C5 counterexample: (i) on a subject whose ledger for `t` already reads
`football`, two `update_web_folio` calls with the pair `(t, oo)` record `oo`
zero times, not once — the dedup test is substring containment, and `oo`
occurs inside `football`; (ii) `load_subject_structure` never reads the
saved-content ledger: two hierarchies differing only in the ledger load to
the same structure. -/
theorem folio_ledger_counterexample :
    ledgerLookup dirtyLedgerFS2 "s" "t" = "football" ∧
    (ledgerEntries (ledgerLookup dirtyLedgerFS2 "s" "t")).count "oo" = 0 ∧
    load_subject_structure ledgerFSA "subjects" =
      load_subject_structure ledgerFSB "subjects" ∧
    ledgerFSA ≠ ledgerFSB :=
  ⟨by decide, by decide, by rfl, by decide⟩

/-- C6: whenever the provider yields a model and the (possibly retried)
invocation returns a plain reply whose text the fenced-dot pattern does not
match, `generate_visual_map` returns the literal fallback graph normally —
no exception. -/
theorem visual_map_fallback_on_no_fence (w : World) (topic content : String)
    (model : Handle) (w0 w1 : World) (ev0 ev1 : List Event)
    (hm : get_gemini_model w none false = (some model, w0, ev0))
    (hi : invoke_model_with_retry w0 model (visual_map_prompt topic) =
      (.ok (.message content), w1, ev1))
    (hc : hasDotFence content = false) :
    generate_visual_map w topic = (.ok fallback_map, w1, ev0 ++ ev1) := by
  unfold generate_visual_map
  rw [hm]
  dsimp only
  rw [hi]
  dsimp only [Response.contentAttr]
  rw [isSome_false_eq_none hc]

/-- The world of the fallback scenario: a valid credential and a model whose
reply holds no fenced block. -/
def noFenceWorld : World :=
  { session := none, nextId := 0, envKey := some "k", secretsKey := none,
    ctorFail := false, sendCount := 0,
    sendBehavior := fun _ _ _ => .ok (.message "no graph here") }

/-- The world after obtaining the provider handle in the fallback scenario. -/
def noFenceW0 : World := (get_gemini_model noFenceWorld none false).2.1

/-- The provider trace of the fallback scenario. -/
def noFenceEv0 : List Event := (get_gemini_model noFenceWorld none false).2.2

/-- The world after the send of the fallback scenario. -/
def noFenceW1 : World :=
  (invoke_model_with_retry noFenceW0 ⟨0, none⟩ (visual_map_prompt "t")).2.1

/-- The invoker trace of the fallback scenario. -/
def noFenceEv1 : List Event :=
  (invoke_model_with_retry noFenceW0 ⟨0, none⟩ (visual_map_prompt "t")).2.2

/-- C6 witness: the concrete fence-less reply yields exactly the fallback
string. -/
theorem visual_map_fallback_witness :
    generate_visual_map noFenceWorld "t" =
      (.ok fallback_map, noFenceW1, noFenceEv0 ++ noFenceEv1) :=
  visual_map_fallback_on_no_fence noFenceWorld "t" "no graph here" ⟨0, none⟩
    noFenceW0 noFenceW1 noFenceEv0 noFenceEv1 rfl rfl rfl

/-- A reply holding two dot-tagged fenced blocks. -/
def doubleDotReply : String := "```dotA```x```dotB```"

/-- The world whose model replies with `doubleDotReply`. -/
def doubleDotWorld : World :=
  { session := none, nextId := 0, envKey := some "k", secretsKey := none,
    ctorFail := false, sendCount := 0,
    sendBehavior := fun _ _ _ => .ok (.message doubleDotReply) }

/-- C7 counterexample: on a reply holding two dot-tagged blocks with contents
`A` and `B`, `generate_visual_map` does not return the first block's trimmed
content `A`: the greedy pattern spans from the first marker to the last
fence, yielding a string that still contains the middle fences. -/
theorem visual_map_first_block_counterexample :
    (firstDotBlock doubleDotReply).map pyStrip = some "A" ∧
    (generate_visual_map doubleDotWorld "t").1 = .ok "A```x```dotB" ∧
    ("A```x```dotB" : String) ≠ "A" :=
  ⟨rfl, rfl, by decide⟩

/-- C7 (amended): `generate_visual_map` returns the trimmed text between the
first dot marker and the last closing fence of the reply; when the closing
fence following the marker is unique (first and last coincide — in
particular when the reply holds exactly one fenced block), this is the
trimmed content of the first dot-tagged block. -/
theorem visual_map_extracts_unique_block (w : World) (topic content : String)
    (model : Handle) (w0 w1 : World) (ev0 ev1 : List Event) (i : Nat)
    (hm : get_gemini_model w none false = (some model, w0, ev0))
    (hi : invoke_model_with_retry w0 model (visual_map_prompt topic) =
      (.ok (.message content), w1, ev1))
    (hmark : firstIdx dotMark content.toList = some i)
    (hu : lastIdx fenceMark (content.toList.drop (i + 6)) =
      firstIdx fenceMark (content.toList.drop (i + 6)))
    (hsome : (firstIdx fenceMark (content.toList.drop (i + 6))).isSome = true) :
    (generate_visual_map w topic).1 = .ok (pyStrip ((firstDotBlock content).getD "")) ∧
    firstDotBlock content ≠ none := by
  cases hj : firstIdx fenceMark (content.toList.drop (i + 6)) with
  | none => rw [hj] at hsome; simp at hsome
  | some j =>
      have hblock : firstDotBlock content =
          some (String.mk ((content.toList.drop (i + 6)).take j)) := by
        unfold firstDotBlock
        rw [hmark]
        dsimp only
        rw [hj]
      have hsearch : dotSearch content =
          some (String.mk ((content.toList.drop (i + 6)).take j)) := by
        unfold dotSearch
        rw [hmark]
        dsimp only
        rw [hu, hj]
      constructor
      · unfold generate_visual_map
        rw [hm]
        dsimp only
        rw [hi]
        dsimp only [Response.contentAttr]
        rw [hsearch, hblock]
        rfl
      · rw [hblock]
        simp

/-- A reply holding a single dot-tagged fenced block. -/
def singleDotReply : String := "```dot X -> Y ```"

/-- The world whose model replies with `singleDotReply`. -/
def singleDotWorld : World :=
  { session := none, nextId := 0, envKey := some "k", secretsKey := none,
    ctorFail := false, sendCount := 0,
    sendBehavior := fun _ _ _ => .ok (.message singleDotReply) }

/-- C7 witness: on the single-block reply the returned string is the first
block's trimmed content. -/
theorem visual_map_extracts_unique_block_witness :
    (generate_visual_map singleDotWorld "t").1 =
      .ok (pyStrip ((firstDotBlock singleDotReply).getD "")) ∧
    firstDotBlock singleDotReply ≠ none :=
  visual_map_extracts_unique_block singleDotWorld "t" singleDotReply ⟨0, none⟩
    (get_gemini_model singleDotWorld none false).2.1
    (invoke_model_with_retry (get_gemini_model singleDotWorld none false).2.1 ⟨0, none⟩
      (visual_map_prompt "t")).2.1
    (get_gemini_model singleDotWorld none false).2.2
    (invoke_model_with_retry (get_gemini_model singleDotWorld none false).2.1 ⟨0, none⟩
      (visual_map_prompt "t")).2.2
    0 rfl rfl rfl rfl rfl

/-! ## Claim on module initialization -/

theorem string_data_append (s t : String) : (s ++ t).data = s.data ++ t.data := by
  cases s
  cases t
  rfl

/-- The last character of a string. -/
def lastChar (s : String) : Option Char := s.data.reverse.head?

theorem lastChar_append (s t : String) (c : Char) (rest : List Char)
    (h : t.data.reverse = c :: rest) : lastChar (s ++ t) = some c := by
  unfold lastChar
  rw [string_data_append, List.reverse_append, h]
  rfl

/-- A module-app filename never collides with a name whose last character is
not `y`. -/
theorem module_app_name_ne (m y : String) (hy : lastChar y ≠ some 'y') :
    m ++ "_app.py" ≠ y := by
  intro h
  apply hy
  rw [← h]
  exact lastChar_append m "_app.py" 'y' ['p', '.', 'p', 'p', 'a', '_'] rfl

theorem FS.readFile_mkdirParents (fs : FS) (p q : DirPath) :
    (fs.mkdirParents p).readFile q = fs.readFile q := rfl

/-- `initialize_subject` writes only directly under the subject directory
(length-3 paths): every other file is untouched. -/
theorem initialize_subject_readFile (fs : FS) (s : String) (q : DirPath)
    (h : q.length ≠ 3) : (initialize_subject fs s).readFile q = fs.readFile q := by
  have hne : ∀ x : String, q ≠ [subjects_root, s, x] := by
    intro x hq
    apply h
    rw [hq]
    rfl
  have hw : ∀ (f : FS) (x : String) (c : FileContent),
      (f.writeFile [subjects_root, s, x] c).readFile q = f.readFile q :=
    fun f x c => FS.readFile_writeFile_ne f _ q c (hne x)
  unfold initialize_subject create_web_dev_app
  dsimp only
  simp only [subject_context_path, index_path, List.cons_append, List.nil_append,
    apply_ite (fun f : FS => FS.readFile f q), hw, FS.readFile_mkdirParents, ite_self]

/-- The filesystem after the unconditional preparation steps of
`initialize_module`: subject initialization and module directory creation. -/
def modulePrep (fs : FS) (s m : String) : FS :=
  (initialize_subject fs s).mkdirParents (module_dir s m)

theorem modulePrep_readFile (fs : FS) (s m : String) (q : DirPath) (h : q.length ≠ 3) :
    (modulePrep fs s m).readFile q = fs.readFile q := by
  unfold modulePrep
  rw [FS.readFile_mkdirParents]
  exact initialize_subject_readFile fs s q h

theorem FS.dirExists_mkdirParents_take (fs : FS) (p : DirPath) (i : Nat)
    (hi : i < p.length) : (fs.mkdirParents p).dirExists (p.take (i + 1)) = true := by
  unfold FS.dirExists FS.mkdirParents
  dsimp only
  rw [decide_eq_true_eq, List.mem_append]
  by_cases hc : p.take (i + 1) ∈ fs.dirs
  · exact Or.inl hc
  · right
    rw [List.mem_filter]
    constructor
    · rw [List.mem_map]
      exact ⟨i, List.mem_range.mpr hi, rfl⟩
    · simpa using hc

theorem modulePrep_dirExists (fs : FS) (s m : String) :
    (modulePrep fs s m).dirExists (module_dir s m) = true ∧
    (modulePrep fs s m).dirExists [subjects_root, s] = true := by
  constructor
  · exact FS.dirExists_mkdirParents_take (initialize_subject fs s) (module_dir s m) 2
      (by simp [module_dir])
  · exact FS.dirExists_mkdirParents_take (initialize_subject fs s) (module_dir s m) 1
      (by simp [module_dir])

/-- C10: the partial writes of `initialize_module`.  When the provider
yields no handle, the extraction block is skipped and the run still ends in
the final writes: `syllabus.txt` and the per-module application exist in the
result while `module_context.txt` is exactly as it was in the input.  When a
handle is obtained but the (successful) reply is not a `ModuleTopics`
instance, the function reports an error and returns early: the subject and
module directories exist, but `module_context.txt`, `syllabus.txt` and the
per-module application are all exactly as they were in the input. -/
theorem initialize_module_partial_writes (w : World) (fs : FS) (s m syl : String) :
    ((get_gemini_model w (some SchemaTy.moduleTopics) false).1 = none →
      initialize_module w fs s m syl =
        moduleFinish (get_gemini_model w (some SchemaTy.moduleTopics) false).2.1
          (modulePrep fs s m) s m syl
          (get_gemini_model w (some SchemaTy.moduleTopics) false).2.2 ∧
      (initialize_module w fs s m syl).2.2.1.fileExists (module_syllabus_file s m) = true ∧
      (initialize_module w fs s m syl).2.2.1.fileExists (module_app_file s m) = true ∧
      (initialize_module w fs s m syl).2.2.1.readFile (module_context_file s m) =
        fs.readFile (module_context_file s m)) ∧
    (∀ llm w0 ev0 resp w1 ev1,
      get_gemini_model w (some SchemaTy.moduleTopics) false = (some llm, w0, ev0) →
      invoke_model_with_retry w0 llm (topics_prompt m syl) = (.ok resp, w1, ev1) →
      resp.isModuleTopics = false →
      initialize_module w fs s m syl =
        (.ok (), w1, modulePrep fs s m,
          ev0 ++ ev1 ++ [Event.error "Failed to parse syllabus."]) ∧
      (modulePrep fs s m).dirExists [subjects_root, s] = true ∧
      (modulePrep fs s m).dirExists (module_dir s m) = true ∧
      (modulePrep fs s m).readFile (module_context_file s m) =
        fs.readFile (module_context_file s m) ∧
      (modulePrep fs s m).readFile (module_syllabus_file s m) =
        fs.readFile (module_syllabus_file s m) ∧
      (modulePrep fs s m).readFile (module_app_file s m) =
        fs.readFile (module_app_file s m)) := by
  have hctx_app : module_context_file s m ≠ module_app_file s m := by
    unfold module_context_file module_app_file module_dir
    intro h
    have h' : "module_context.txt" = m ++ "_app.py" := by simpa using h
    exact module_app_name_ne m "module_context.txt" (by decide) h'.symm
  have hctx_syl : module_context_file s m ≠ module_syllabus_file s m := by
    unfold module_context_file module_syllabus_file module_dir
    intro h
    simp at h
  have happ_syl : module_app_file s m ≠ module_syllabus_file s m := by
    unfold module_app_file module_syllabus_file module_dir
    intro h
    have h' : m ++ "_app.py" = "syllabus.txt" := by simpa using h
    exact module_app_name_ne m "syllabus.txt" (by decide) h'
  have hlen : ∀ x : String, (module_dir s m ++ [x]).length ≠ 3 := by
    intro x
    simp [module_dir]
  constructor
  · intro hm
    cases hg : get_gemini_model w (some SchemaTy.moduleTopics) false with
    | mk mo rest =>
      obtain ⟨w0, ev0⟩ := rest
      rw [hg] at hm
      dsimp only at hm
      subst hm
      have hrun : initialize_module w fs s m syl =
          moduleFinish w0 (modulePrep fs s m) s m syl ev0 := by
        unfold initialize_module
        rw [hg]
        rfl
      refine ⟨?_, ?_, ?_, ?_⟩
      · rw [hrun]
      · rw [hrun]
        unfold moduleFinish
        dsimp only
        simp [FS.fileExists, FS.readFile_writeFile_self]
      · rw [hrun]
        unfold moduleFinish
        dsimp only
        simp [FS.fileExists, FS.readFile_writeFile_ne _ _ _ _ happ_syl,
          FS.readFile_writeFile_self]
      · rw [hrun]
        unfold moduleFinish
        dsimp only
        rw [FS.readFile_writeFile_ne _ _ _ _ hctx_syl,
          FS.readFile_writeFile_ne _ _ _ _ hctx_app]
        exact modulePrep_readFile fs s m _ (hlen _)
  · intro llm w0 ev0 resp w1 ev1 hg hi hr
    have hrun : initialize_module w fs s m syl =
        (.ok (), w1, modulePrep fs s m,
          ev0 ++ ev1 ++ [Event.error "Failed to parse syllabus."]) := by
      unfold initialize_module
      rw [hg]
      dsimp only
      rw [hi]
      dsimp only
      cases resp with
      | moduleTopics tl => simp [Response.isModuleTopics] at hr
      | message c => rfl
      | generatedCode a b c => rfl
    exact ⟨hrun, (modulePrep_dirExists fs s m).2, (modulePrep_dirExists fs s m).1,
      modulePrep_readFile fs s m _ (hlen _), modulePrep_readFile fs s m _ (hlen _),
      modulePrep_readFile fs s m _ (hlen _)⟩

/-- A world with a valid credential whose model replies with a plain message
(never a `ModuleTopics` instance). -/
def msgWorld : World :=
  { session := none, nextId := 0, envKey := some "k", secretsKey := none,
    ctorFail := false, sendCount := 0, sendBehavior := fun _ _ _ => .ok (.message "hi") }

/-- The world after obtaining the topic-extraction handle from `msgWorld`. -/
def msgW0 : World := (get_gemini_model msgWorld (some SchemaTy.moduleTopics) false).2.1

/-- The provider trace of the `msgWorld` scenario. -/
def msgEv0 : List Event := (get_gemini_model msgWorld (some SchemaTy.moduleTopics) false).2.2

/-- The world after the topic-extraction send of the `msgWorld` scenario. -/
def msgW1 : World :=
  (invoke_model_with_retry msgW0 ⟨0, some SchemaTy.moduleTopics⟩
    (topics_prompt "m" "syllabus")).2.1

/-- The invoker trace of the `msgWorld` scenario. -/
def msgEv1 : List Event :=
  (invoke_model_with_retry msgW0 ⟨0, some SchemaTy.moduleTopics⟩
    (topics_prompt "m" "syllabus")).2.2

/-- C10 witness: with the provider unavailable the module run writes the
syllabus and leaves `module_context.txt` absent; with a plain-message reply
the run returns early with only the preparation writes. -/
theorem initialize_module_partial_writes_witness :
    ((initialize_module noCredWorld FS.empty "s" "m" "syllabus").2.2.1.fileExists
        (module_syllabus_file "s" "m") = true ∧
      (initialize_module noCredWorld FS.empty "s" "m" "syllabus").2.2.1.readFile
        (module_context_file "s" "m") = FS.empty.readFile (module_context_file "s" "m")) ∧
    initialize_module msgWorld FS.empty "s" "m" "syllabus" =
      (.ok (), msgW1, modulePrep FS.empty "s" "m",
        msgEv0 ++ msgEv1 ++ [Event.error "Failed to parse syllabus."]) :=
  ⟨⟨((initialize_module_partial_writes noCredWorld FS.empty "s" "m" "syllabus").1 rfl).2.1,
    ((initialize_module_partial_writes noCredWorld FS.empty "s" "m" "syllabus").1 rfl).2.2.2⟩,
   ((initialize_module_partial_writes msgWorld FS.empty "s" "m" "syllabus").2
      ⟨0, some SchemaTy.moduleTopics⟩ msgW0 msgEv0 (.message "hi") msgW1 msgEv1
      rfl rfl rfl).1⟩

end McpStudy
